import Mathlib

/-
Shallow embedding of the Helios telemetry platform (agent runtime, ingest and
registry server, metrics stores, recommender, anomaly detector) together with
proofs about the embedded operations.

Conventions used throughout:
* Wall-clock instants and durations are rationals, in seconds (Python
  `datetime` values are exact microsecond counts, so `ℚ` loses nothing).
* Float arithmetic of the source is modelled exactly over `ℚ`; where the
  source takes a square root (the anomaly detector's `np.std`) the embedding
  works with the squared quantity and the adequacy of that encoding is proved
  against `Real.sqrt` in the theorem section.
* Python `or` on strings/ints (falsy `""`, `0`, `None`) is modelled explicitly
  at each use site.
-/

deriving instance DecidableEq for Except

namespace Helios

/-! ### Agent buffer: failure branch of `Agent._flush_metrics` (agent.py 166-198) -/

/-- Failure branch of `Agent._flush_metrics` (agent.py lines 176-198).
The batch is the buffer's prefix of size `batchSize`
(`metrics_to_send = self._metrics_buffer[:batch_size]`); `appended` are samples
that poller tasks appended to the buffer while the HTTP send was in flight.
On failure the code runs `self._metrics_buffer = metrics_to_send + self._metrics_buffer`
and then, when the result exceeds `max_buffer = batch_size * 10`, keeps
`self._metrics_buffer[:max_buffer]` — the FIRST `max_buffer` elements — and logs
the number of dropped samples.  Returns the new buffer and that drop count. -/
def flushMetricsFail (batchSize : Nat) (buffer appended : List α) : List α × Nat :=
  let metricsToSend := buffer.take batchSize
  let remaining := buffer.drop batchSize ++ appended
  let rebuffered := metricsToSend ++ remaining
  let maxBuffer := batchSize * 10
  if rebuffered.length > maxBuffer then
    (rebuffered.take maxBuffer, rebuffered.length - maxBuffer)
  else
    (rebuffered, 0)

/-! ### Server commands and `Agent._apply_commands` (agent.py 200-214) -/

/-- Value found under the `collection_interval` key of a commands dict: the key
can be absent, present holding `None`, or present holding an int. -/
inductive CmdInterval where
  | absent
  | pynone
  | val (n : Int)
deriving DecidableEq

/-- The `commands` dict a server could return.  `paused = some b` models the key
being present with truthiness `b` (the code runs `bool(commands["paused"])`);
`none` models an absent key. -/
structure CommandsDict where
  paused : Option Bool
  collection_interval : CmdInterval
deriving DecidableEq

/-- Server-controllable agent state read and written by `Agent._apply_commands`:
the `_paused` flag and the `_interval_override` optional int. -/
structure AgentCtl where
  paused : Bool
  interval_override : Option Int
deriving DecidableEq

/-- `Agent._apply_commands` (agent.py 200-214).  A present `paused` key sets
`_paused` to its truthiness.  A present `collection_interval` key is passed to
`int(...)`: an int value replaces `_interval_override`, while `None` makes
`int(None)` raise `TypeError`.  Nothing ever clears the override. -/
def applyCommands (ctl : AgentCtl) (c : CommandsDict) : Except String AgentCtl :=
  let ctl1 :=
    match c.paused with
    | none => ctl
    | some b => { ctl with paused := b }
  match c.collection_interval with
  | .absent => .ok ctl1
  | .pynone => .error "TypeError"
  | .val n => .ok { ctl1 with interval_override := some n }

/-- Sleep interval used by `Agent._run_source` (agent.py 157):
`interval = self._interval_override or source.config.interval`.  Python `or`
falls through both when the override is `None` and when it is `0` (falsy). -/
def pollInterval (ctl : AgentCtl) (sourceInterval : Int) : Int :=
  match ctl.interval_override with
  | none => sourceInterval
  | some n => if n = 0 then sourceInterval else n

/-! ### `HeliosClient.send_metrics` retry loop (client.py 54-104) -/

/-- Outcome of one HTTP POST attempt as seen by `send_metrics`: a status code
(with the optional parsed `Retry-After` header, read only on 429), a timeout
(`httpx.TimeoutException`), or another `httpx.HTTPError`. -/
inductive HttpOutcome where
  | status (code : Nat) (retryAfter : Option ℚ)
  | timeout
  | httpError
deriving DecidableEq

/-- One `asyncio.sleep` performed by `send_metrics`, tagged by which line sleeps:
the rate-limit wait of the 429 branch (client.py 91) or the linear backoff at the
bottom of the loop (client.py 100-101). -/
inductive SleepEvent where
  | backoff (d : ℚ)
  | rateLimitWait (d : ℚ)
deriving DecidableEq

/-- Observable trace of one `send_metrics` call: the returned boolean, the number
of HTTP POST attempts made, and the sleeps performed in order. -/
structure SendTrace where
  success : Bool
  attempts : Nat
  sleeps : List SleepEvent
deriving DecidableEq

/-- A fall-through iteration of the `send_metrics` loop: perform the branch's
own sleeps `pre` (the 429 rate-limit wait, or nothing), then the linear backoff
`retry_delay * (attempt + 1)` of client.py 100-101 — skipped on the last
iteration (`attempt < retry_attempts - 1`) — and continue with the rest of the
loop's trace `t`. -/
def sendStep (retryAttempts : Nat) (retryDelay : ℚ) (i : Nat) (pre : List SleepEvent)
    (t : SendTrace) : SendTrace :=
  let backoffs : List SleepEvent :=
    if i < retryAttempts - 1 then [.backoff (retryDelay * ((i + 1 : Nat) : ℚ))] else []
  ⟨t.success, t.attempts + 1, pre ++ backoffs ++ t.sleeps⟩

/-- The `for attempt in range(self.retry_attempts)` loop of `send_metrics`
(client.py 74-104), from attempt index `i` with `fuel` loop iterations left
(`fuel = retryAttempts - i` at the top-level call).  `net i` is the outcome the
network yields for attempt `i`.  Status 200 returns `True` at once; 401 returns
`False` at once; 429 sleeps `Retry-After` (defaulting to `retry_delay * 2`) and
falls through; all other outcomes fall through.  Exhausting the loop returns
`False`. -/
def sendGo (retryAttempts : Nat) (retryDelay : ℚ) (net : Nat → HttpOutcome) :
    Nat → Nat → SendTrace
  | _, 0 => ⟨false, 0, []⟩
  | i, fuel + 1 =>
    match net i with
    | .status code h =>
      if code = 200 then ⟨true, 1, []⟩
      else if code = 401 then ⟨false, 1, []⟩
      else if code = 429 then
        sendStep retryAttempts retryDelay i [.rateLimitWait (h.getD (retryDelay * 2))]
          (sendGo retryAttempts retryDelay net (i + 1) fuel)
      else
        sendStep retryAttempts retryDelay i [] (sendGo retryAttempts retryDelay net (i + 1) fuel)
    | .timeout => sendStep retryAttempts retryDelay i [] (sendGo retryAttempts retryDelay net (i + 1) fuel)
    | .httpError => sendStep retryAttempts retryDelay i [] (sendGo retryAttempts retryDelay net (i + 1) fuel)

/-- `HeliosClient.send_metrics` (client.py 54-104): an empty metrics list returns
`True` without any HTTP attempt; otherwise the retry loop runs with
`retry_attempts` iterations starting at attempt index 0. -/
def sendMetrics (retryAttempts : Nat) (retryDelay : ℚ) (net : Nat → HttpOutcome)
    (metrics : List α) : SendTrace :=
  if metrics.isEmpty then ⟨true, 0, []⟩
  else sendGo retryAttempts retryDelay net 0 retryAttempts

/-- The backoff-tagged sleep durations of a trace, in order (the rate-limit
waits of 429 branches are a separate, additional wait). -/
def backoffSleeps (l : List SleepEvent) : List ℚ :=
  l.filterMap fun e =>
    match e with
    | .backoff d => some d
    | .rateLimitWait _ => none

/-- The sequence of linear backoffs starting at attempt index `i`, for `m`
further fall-throughs: `rd·(i+1), rd·(i+2), …, rd·(i+m)`. -/
def expectedBackoffs (rd : ℚ) (i : Nat) : Nat → List ℚ
  | 0 => []
  | m + 1 => rd * ((i + 1 : Nat) : ℚ) :: expectedBackoffs rd (i + 1) m

/-! ### Python result values and the `Agent._flush_metrics` dispatch (agent.py 181-198) -/

/-- The Python values relevant to `_flush_metrics`' handling of
`result = await self.client.send_metrics(...)`: `None`, a bool (what
`send_metrics` actually returns), or a response dict with an optional
`commands` entry (what the dispatch code expects). -/
inductive PyResult where
  | pynone
  | pybool (b : Bool)
  | pydict (commands : Option CommandsDict)
deriving DecidableEq

/-- Python `result is not None` (agent.py 183). -/
def isNotNone : PyResult → Bool
  | .pynone => false
  | _ => true

/-- How one `_flush_metrics` call ends after the send, given `result`
(agent.py 183-198): the success branch reads `result.get("commands")`, which
succeeds only on a dict and raises `AttributeError` otherwise; the
`else` branch re-buffers the batch. -/
inductive FlushOutcome where
  | sentApplied (commands : Option CommandsDict)
  | attributeError
  | rebuffered
deriving DecidableEq

/-- Dispatch of `Agent._flush_metrics` on the send result (agent.py 183-198):
`if result is not None:` enters the success branch, which then evaluates
`result.get("commands")`; only `result is None` reaches the re-buffering
branch. -/
def flushDispatch (result : PyResult) : FlushOutcome :=
  if isNotNone result then
    match result with
    | .pydict c => .sentApplied c
    | _ => .attributeError
  else
    .rebuffered

/-- The value `_flush_metrics` actually receives from
`HeliosClient.send_metrics`: the boolean of the call's trace, as a Python
value. -/
def sendMetricsPy (retryAttempts : Nat) (retryDelay : ℚ) (net : Nat → HttpOutcome)
    (metrics : List α) : PyResult :=
  .pybool (sendMetrics retryAttempts retryDelay net metrics).success

/-! ### Deployment/agent registry rows (db.py 68-94, sqlite_backend.py 59-78)

Agent rows carry the same logical fields in both backends.  `status` is kept as
a string, matching both the SQLite TEXT column and the Python `str`-valued
enum whose members are `"online"`, `"offline"`, `"warning"`.  Timestamps are
rationals (seconds); the SQLite backend stores fixed-format ISO strings whose
lexicographic order matches the chronological one. -/

/-- One agent row (the `Agent` pydantic model of db.py and the `agents` table of
sqlite_backend.py share these fields). -/
structure AgentRow where
  id : String
  deployment_id : String
  hostname : String
  platform : String
  agent_version : String
  status : String
  last_seen : ℚ
  registered_at : ℚ
  paused : Bool
  collection_interval : Int
  metrics : List String
  metrics_count : Int
  location : Option String
  region : Option String
  latitude : Option ℚ
  longitude : Option ℚ
  ip_address : Option String
deriving DecidableEq

/-- In-memory `DeploymentStore._update_agent_statuses` (db.py 302-317) applied
to one agent: paused agents are skipped via `continue`; otherwise the status is
recomputed from `now - last_seen` with the 5-minute and 2-minute cutoffs. -/
def updateAgentStatusMem (now : ℚ) (a : AgentRow) : AgentRow :=
  if a.paused then a
  else if now - a.last_seen > 300 then { a with status := "offline" }
  else if now - a.last_seen > 120 then { a with status := "warning" }
  else { a with status := "online" }

/-- In-memory `_update_agent_statuses` over the whole store (db.py 308). -/
def updateAgentStatusesMem (now : ℚ) (l : List AgentRow) : List AgentRow :=
  l.map (updateAgentStatusMem now)

/-- First UPDATE of `SQLiteDeploymentStore._update_agent_statuses`
(sqlite_backend.py 386-389): `SET status='offline' WHERE last_seen < offline_cutoff
AND status != 'paused'`, with `offline_cutoff = now - 5 min`. -/
def sqliteOfflinePass (now : ℚ) (a : AgentRow) : AgentRow :=
  if a.last_seen < now - 300 ∧ a.status ≠ "paused" then { a with status := "offline" } else a

/-- Second UPDATE of `SQLiteDeploymentStore._update_agent_statuses`
(sqlite_backend.py 390-393): `SET status='warning' WHERE last_seen >= offline_cutoff
AND last_seen < warning_cutoff AND status != 'paused'`. -/
def sqliteWarningPass (now : ℚ) (a : AgentRow) : AgentRow :=
  if now - 300 ≤ a.last_seen ∧ a.last_seen < now - 120 ∧ a.status ≠ "paused" then
    { a with status := "warning" }
  else a

/-- SQLite `_update_agent_statuses` (sqlite_backend.py 380-393): the two UPDATE
statements run in order over every row.  Note there is no statement setting
fresh rows back to `'online'`, and the guard compares the `status` column with
the string `'paused'`. -/
def updateAgentStatusesSql (now : ℚ) (l : List AgentRow) : List AgentRow :=
  (l.map (sqliteOfflinePass now)).map (sqliteWarningPass now)

/-! ### Agent registration (db.py 235-272, sqlite_backend.py 282-335) -/

/-- The `AgentRegister` request model (db.py 97-106). -/
structure AgentRegisterData where
  agent_id : Option String
  hostname : String
  platform : String
  agent_version : String
  metrics : List String
  location : Option String
  region : Option String
  ip_address : Option String
deriving DecidableEq

/-- Python string slicing `s[:n]`. -/
def strTake (s : String) (n : Nat) : String := String.mk (s.data.take n)

/-- Agent id selection (db.py 242, sqlite_backend.py 297):
`data.agent_id or f"{data.hostname[:8]}-{str(uuid.uuid4())[:4]}"`.  Python `or`
also rejects an empty string; `fresh` stands for the random 4-char draw. -/
def chooseAgentId (d : AgentRegisterData) (fresh : String) : String :=
  match d.agent_id with
  | some s => if s = "" then strTake d.hostname 8 ++ "-" ++ fresh else s
  | none => strTake d.hostname 8 ++ "-" ++ fresh

/-- In-memory `DeploymentStore.register_agent` (db.py 235-272).  The store is
`self._agents` (a dict in insertion order) as a list; `deployments` are the ids
of `self._deployments`.  A missing deployment raises `ValueError`.  An existing
agent id updates the mutable fields in place and returns the row; otherwise a
new row is appended with the model defaults (status online, paused false,
interval 15, metrics_count 0).  Returns the new store and the returned row. -/
def registerAgentMem (deployments : List String) (agents : List AgentRow)
    (deploymentId : String) (d : AgentRegisterData) (now : ℚ) (fresh : String) :
    Except String (List AgentRow × AgentRow) :=
  if deploymentId ∉ deployments then .error "deployment not found"
  else
    let agentId := chooseAgentId d fresh
    match agents.find? (fun a => a.id = agentId) with
    | some existing =>
      let u := { existing with
        last_seen := now
        status := "online"
        hostname := d.hostname
        platform := d.platform
        agent_version := d.agent_version
        metrics := d.metrics
        location := d.location
        region := d.region
        ip_address := d.ip_address }
      .ok (agents.map fun a => if a.id = agentId then u else a, u)
    | none =>
      let na : AgentRow := {
        id := agentId
        deployment_id := deploymentId
        hostname := d.hostname
        platform := d.platform
        agent_version := d.agent_version
        status := "online"
        last_seen := now
        registered_at := now
        paused := false
        collection_interval := 15
        metrics := d.metrics
        metrics_count := 0
        location := d.location
        region := d.region
        latitude := none
        longitude := none
        ip_address := d.ip_address }
      .ok (agents ++ [na], na)

/-- SQLite `SQLiteDeploymentStore.register_agent` (sqlite_backend.py 282-335).
A missing deployment is auto-created.  An existing agent id gets
`UPDATE agents SET hostname, platform, agent_version, status='online',
last_seen, metrics, location, region, ip_address`; otherwise an INSERT with
the column defaults.  The function re-reads and returns the row.  Returns the
new deployment-id list, the new agents table, and the returned row. -/
def registerAgentSql (deployments : List String) (agents : List AgentRow)
    (deploymentId : String) (d : AgentRegisterData) (now : ℚ) (fresh : String) :
    List String × List AgentRow × AgentRow :=
  let deployments' :=
    if deploymentId ∈ deployments then deployments else deployments ++ [deploymentId]
  let agentId := chooseAgentId d fresh
  match agents.find? (fun a => a.id = agentId) with
  | some existing =>
    let u := { existing with
      hostname := d.hostname
      platform := d.platform
      agent_version := d.agent_version
      status := "online"
      last_seen := now
      metrics := d.metrics
      location := d.location
      region := d.region
      ip_address := d.ip_address }
    (deployments', agents.map fun a => if a.id = agentId then u else a, u)
  | none =>
    let na : AgentRow := {
      id := agentId
      deployment_id := deploymentId
      hostname := d.hostname
      platform := d.platform
      agent_version := d.agent_version
      status := "online"
      last_seen := now
      registered_at := now
      paused := false
      collection_interval := 15
      metrics := d.metrics
      metrics_count := 0
      location := d.location
      region := d.region
      latitude := none
      longitude := none
      ip_address := d.ip_address }
    (deployments', agents ++ [na], na)

/-- SQLite `get_agent_config` (sqlite_backend.py 422-434): returns
`{paused, collection_interval or 15}` for an existing agent (`or 15` catches a
falsy 0/NULL interval), `None` otherwise. -/
def getAgentConfigSql (agents : List AgentRow) (agentId : String) : Option (Bool × Int) :=
  match agents.find? (fun a => a.id = agentId) with
  | none => none
  | some a => some (a.paused, if a.collection_interval = 0 then 15 else a.collection_interval)

/-! ### Metric points and the two metrics stores (db.py 345-386, sqlite_backend.py 437-607) -/

/-- One metric sample/row: name, value, timestamp, labels.  Timestamps arrive
already parsed (both backends parse ISO strings, defaulting to now on failure,
before the insert). -/
structure MetricPoint where
  name : String
  value : ℚ
  timestamp : ℚ
  labels : List (String × String)
deriving DecidableEq

/-- In-memory `MetricsStore.add_metric` (db.py 360-367): append the point, then
if the list exceeds `max_points` keep `self._metrics[-max_points:]`, the LAST
`max_points` elements in insertion order. -/
def memAddMetric (maxPoints : Nat) (store : List MetricPoint) (p : MetricPoint) :
    List MetricPoint :=
  let s := store ++ [p]
  if s.length > maxPoints then s.drop (s.length - maxPoints) else s

/-- In-memory `MetricsStore.add_metrics` (db.py 369-386): `add_metric` per
element, in order. -/
def memAddMetrics (maxPoints : Nat) (store : List MetricPoint) (batch : List MetricPoint) :
    List MetricPoint :=
  batch.foldl (memAddMetric maxPoints) store

/-- One row of the SQLite `metrics` table: the `AUTOINCREMENT` primary key plus
the sample. -/
structure SqlMetricRow where
  id : Nat
  p : MetricPoint
deriving DecidableEq

/-- Order used by `_trim`'s `SELECT id FROM metrics ORDER BY timestamp ASC`
(sqlite_backend.py 602-604), determinized by the unique autoincrement id on
equal timestamps. -/
def rowLe (r s : SqlMetricRow) : Prop :=
  r.p.timestamp < s.p.timestamp ∨ (r.p.timestamp = s.p.timestamp ∧ r.id ≤ s.id)

instance : DecidableRel rowLe := fun r s => by
  unfold rowLe; infer_instance

instance : IsTotal SqlMetricRow rowLe := by
  constructor
  intro a b
  rcases lt_trichotomy a.p.timestamp b.p.timestamp with h | h | h
  · exact Or.inl (Or.inl h)
  · rcases Nat.le_total a.id b.id with h2 | h2
    · exact Or.inl (Or.inr ⟨h, h2⟩)
    · exact Or.inr (Or.inr ⟨h.symm, h2⟩)
  · exact Or.inr (Or.inl h)

instance : IsTrans SqlMetricRow rowLe := by
  constructor
  intro a b c hab hbc
  rcases hab with h1 | ⟨e1, i1⟩
  · rcases hbc with h2 | ⟨e2, _⟩
    · exact Or.inl (h1.trans h2)
    · exact Or.inl (e2 ▸ h1)
  · rcases hbc with h2 | ⟨e2, i2⟩
    · exact Or.inl (e1 ▸ h2)
    · exact Or.inr ⟨e1.trans e2, i1.trans i2⟩

/-- SQLite `SQLiteMetricsStore._trim` (sqlite_backend.py 596-606): when the row
count exceeds `max_points`, delete the `excess` rows that come first in
`ORDER BY timestamp ASC`.  The kept multiset is modelled as the sorted list
minus its first `excess` elements (queries re-order rows anyway, so only the
kept set matters). -/
def sqlTrim (maxPoints : Nat) (rows : List SqlMetricRow) : List SqlMetricRow :=
  if rows.length > maxPoints then
    (List.insertionSort rowLe rows).drop (rows.length - maxPoints)
  else rows

/-- State of the SQLite metrics table: rows plus the next autoincrement id. -/
structure SqlMetricsState where
  rows : List SqlMetricRow
  nextId : Nat
deriving DecidableEq

/-- SQLite `SQLiteMetricsStore.add_metrics` (sqlite_backend.py 490-514): INSERT
every sample of the batch (ids from the autoincrement counter), then `_trim`
once. -/
def sqlAddMetrics (maxPoints : Nat) (s : SqlMetricsState) (batch : List MetricPoint) :
    SqlMetricsState :=
  let newRows := batch.enum.map fun (q : Nat × MetricPoint) => SqlMetricRow.mk (s.nextId + q.1) q.2
  { rows := sqlTrim maxPoints (s.rows ++ newRows), nextId := s.nextId + batch.length }

/-! ### Ingest endpoint `POST /api/v1/ingest` (app.py 411-469) -/

/-- The parsed ingest payload: the (validated) metrics list and the
`agent_version` string; other keys are unused by the handler. -/
structure IngestPayload where
  metrics : List MetricPoint
  agent_version : String
deriving DecidableEq

/-- The JSON body `ingest_metrics` returns.  A `commands` key, were it present,
would hold a `CommandsDict`; `none` models an absent key. -/
structure IngestResponse where
  received : Nat
  commands : Option CommandsDict
deriving DecidableEq

/-- Python `labels.get(k)`. -/
def labelsGet (labels : List (String × String)) (k : String) : Option String :=
  labels.lookup k

/-- Python `a or b` for an optional string `a` (falsy: missing or empty). -/
def pyOrStr (a : Option String) (b : String) : String :=
  match a with
  | some s => if s = "" then b else s
  | none => b

/-- `ingest_metrics` (app.py 416-469) after JSON validation: store the batch,
auto-register an agent from the first sample's labels when a `deployment` label
is present (hostname from `labels.get("host") or labels.get("hostname",
"unknown")`, platform from `labels.get("platform", plat.system())`, metric
names deduplicated, agent id `hostname[:8] + "-" + deployment[:4]`), and return
`{"received": len(metrics)}`.  The handler builds no `commands` key.
Registration failures are logged only, so the response never depends on it. -/
def ingestMetrics (maxPoints : Nat) (store : SqlMetricsState)
    (deployments : List String) (agents : List AgentRow)
    (payload : IngestPayload) (now : ℚ) (hostPlatform : String) :
    SqlMetricsState × List String × List AgentRow × IngestResponse :=
  let store' := sqlAddMetrics maxPoints store payload.metrics
  let reg :=
    match payload.metrics with
    | [] => (deployments, agents)
    | first :: _ =>
      match labelsGet first.labels "deployment" with
      | none => (deployments, agents)
      | some dep =>
        let hostname := pyOrStr (labelsGet first.labels "host")
          ((labelsGet first.labels "hostname").getD "unknown")
        let data : AgentRegisterData := {
          agent_id := some (strTake hostname 8 ++ "-" ++ strTake dep 4)
          hostname := hostname
          platform := (labelsGet first.labels "platform").getD hostPlatform
          agent_version := payload.agent_version
          metrics := (payload.metrics.map MetricPoint.name).dedup
          location := none
          region := none
          ip_address := none }
        let r := registerAgentSql deployments agents dep data now ""
        (r.1, r.2.1)
  (store', reg.1, reg.2, { received := payload.metrics.length, commands := none })

/-! ### Recommender service (recommender.py, config.py 63-72, models.py 184-234)

The reason strings built with f-string interpolation in the source are kept as
their constant stems; the kubernetes resource strings `cpu_request`/`cpu_limit`
appear already parsed to millicores (`_parse_cpu`), which is all
`_recommend_resource_optimization` reads. -/

/-- `ActionType` (models.py 40-47). -/
inductive ActionType where
  | scale_up
  | scale_down
  | scale_out
  | scale_in
  | no_action
  | investigate
deriving DecidableEq

/-- `CurrentState` resource fields used by the recommender, with the CPU
quantities in millicores. -/
structure CurrentState where
  replicas : Int
  cpu_request : ℚ
  memory_request : ℚ
  cpu_limit : ℚ
  memory_limit : ℚ
deriving DecidableEq

/-- `RecommendationRequest` (models.py 184-190); `predictions` keeps the point
values (the only field the service reads), `ns` is the `namespace` field. -/
structure RecommendationRequest where
  workload : String
  ns : String
  current_state : CurrentState
  predictions : Option (List ℚ)
  target_utilization : ℚ
deriving DecidableEq

/-- `ScalingAction` (models.py 208-216). -/
structure ScalingAction where
  action : ActionType
  target_replicas : Option Int
  target_cpu_request : Option ℚ
  confidence : ℚ
  reason : String
  estimated_savings_percent : Option ℚ
deriving DecidableEq

/-- `Recommendation` (models.py 219-227). -/
structure Recommendation where
  workload : String
  ns : String
  current_state : CurrentState
  actions : List ScalingAction
  predicted_utilization : Option ℚ
  time_horizon_minutes : Int
deriving DecidableEq

/-- `RecommendationResponse` (models.py 230-234); the metadata dict is modelled
by its two possible entries (`cooldown_active`, `target_utilization`). -/
structure RecommendationResponse where
  recommendations : List Recommendation
  cooldown_active : Bool
  target_utilization_meta : Option ℚ
deriving DecidableEq

/-- `RecommendationConfig` (config.py 63-72). -/
structure RecConfig where
  target_utilization : ℚ
  scale_up_threshold : ℚ
  scale_down_threshold : ℚ
  cooldown_minutes : Int
  min_replicas : Int
  max_replicas : Int
deriving DecidableEq

/-- The server's default recommendation config (config.py 63-72). -/
def serverRecConfig : RecConfig :=
  { target_utilization := 7 / 10
    scale_up_threshold := 17 / 20
    scale_down_threshold := 3 / 10
    cooldown_minutes := 5
    min_replicas := 1
    max_replicas := 100 }

/-- The recommender's `self._last_recommendations` dict: workload key to
(time of the recommendation in seconds, the recommendation). -/
def RecState := List (String × ℚ × Recommendation)

/-- `RecommenderService._check_cooldown` (recommender.py 78-86): unknown key
means no cooldown; otherwise allow when `(now - last) / 60` minutes is at least
`cooldown_minutes`. -/
def checkCooldown (cfg : RecConfig) (s : RecState) (key : String) (now : ℚ) : Bool :=
  match (List.lookup key s : Option (ℚ × Recommendation)) with
  | none => true
  | some tr => decide ((now - tr.1) / 60 ≥ (cfg.cooldown_minutes : ℚ))

/-- `RecommenderService._create_cooldown_recommendation` (recommender.py
88-102): a single `no_action` action at confidence 1. -/
def createCooldownRecommendation (cfg : RecConfig) (req : RecommendationRequest) :
    Recommendation :=
  { workload := req.workload
    ns := req.ns
    current_state := req.current_state
    actions := [{ action := .no_action, target_replicas := none, target_cpu_request := none,
                  confidence := 1, reason := "In cooldown period, no action recommended",
                  estimated_savings_percent := none }]
    predicted_utilization := none
    time_horizon_minutes := cfg.cooldown_minutes }

/-- `RecommenderService._estimate_current_utilization` (recommender.py 240-248):
the source returns the placeholder 0.5. -/
def estimateCurrentUtilization (_ : CurrentState) : ℚ := 1 / 2

/-- `RecommenderService._get_predicted_utilization` (recommender.py 250-258):
`None` for a missing or empty list, else the max value. -/
def getPredictedUtilization (preds : Option (List ℚ)) : Option ℚ :=
  match preds with
  | none => none
  | some [] => none
  | some (p :: ps) => some (ps.foldl max p)

/-- `RecommenderService._recommend_scale_up` (recommender.py 146-174). -/
def recommendScaleUp (cfg : RecConfig) (req : RecommendationRequest)
    (currentUtil targetUtil : ℚ) : ScalingAction :=
  let currentReplicas := req.current_state.replicas
  let targetReplicas := min ⌈(currentReplicas : ℚ) * (currentUtil / targetUtil)⌉ cfg.max_replicas
  let excess := currentUtil - cfg.scale_up_threshold
  { action := .scale_out
    target_replicas := some targetReplicas
    target_cpu_request := none
    confidence := min (1 / 2 + excess * 2) (19 / 20)
    reason := "Current utilization exceeds threshold"
    estimated_savings_percent := none }

/-- `RecommenderService._recommend_scale_down` (recommender.py 176-211). -/
def recommendScaleDown (cfg : RecConfig) (req : RecommendationRequest)
    (currentUtil targetUtil : ℚ) : ScalingAction :=
  let currentReplicas := req.current_state.replicas
  let targetReplicas :=
    max ⌈(currentReplicas : ℚ) * (currentUtil / targetUtil)⌉ cfg.min_replicas
  let savings : ℚ :=
    if currentReplicas > targetReplicas then
      ((currentReplicas : ℚ) - (targetReplicas : ℚ)) / (currentReplicas : ℚ) * 100
    else 0
  let deficit := cfg.scale_down_threshold - currentUtil
  { action := .scale_in
    target_replicas := some targetReplicas
    target_cpu_request := none
    confidence := min (2 / 5 + deficit) (17 / 20)
    reason := "Current utilization is below threshold"
    estimated_savings_percent := some savings }

/-- `RecommenderService._recommend_resource_optimization` (recommender.py
213-238): a secondary vertical action when the CPU limit exceeds three times
the CPU request. -/
def recommendResourceOptimization (req : RecommendationRequest) : Option ScalingAction :=
  if req.current_state.cpu_limit > req.current_state.cpu_request * 3 then
    some { action := .scale_down
           target_replicas := none
           target_cpu_request := some req.current_state.cpu_request
           confidence := 3 / 5
           reason := "CPU limit is significantly higher than request"
           estimated_savings_percent := none }
  else none

/-- `RecommenderService._analyze_and_recommend` (recommender.py 104-144). -/
def analyzeAndRecommend (cfg : RecConfig) (req : RecommendationRequest) :
    List ScalingAction :=
  let currentUtil := estimateCurrentUtilization req.current_state
  let predictedUtil := getPredictedUtilization req.predictions
  let effectiveUtil := max currentUtil (predictedUtil.getD 0)
  let base :=
    if effectiveUtil > cfg.scale_up_threshold then
      [recommendScaleUp cfg req effectiveUtil req.target_utilization]
    else if effectiveUtil < cfg.scale_down_threshold then
      [recommendScaleDown cfg req effectiveUtil req.target_utilization]
    else
      [{ action := .no_action, target_replicas := none, target_cpu_request := none,
         confidence := 9 / 10, reason := "Utilization is within target range",
         estimated_savings_percent := none }]
  match recommendResourceOptimization req with
  | some a => base ++ [a]
  | none => base

/-- `RecommenderService.recommend` (recommender.py 34-76) with the wall clock
explicit.  During cooldown: a single cooldown recommendation, metadata
`cooldown_active=True`, state unchanged.  Otherwise: analyze, build the
recommendation, store `(now, recommendation)` under the workload key
(dict overwrite), and answer with `cooldown_active=False`. -/
def recommend (cfg : RecConfig) (s : RecState) (now : ℚ) (req : RecommendationRequest) :
    RecommendationResponse × RecState :=
  let workloadKey := req.ns ++ "/" ++ req.workload
  if checkCooldown cfg s workloadKey now then
    let actions := analyzeAndRecommend cfg req
    let newRec : Recommendation :=
      { workload := req.workload
        ns := req.ns
        current_state := req.current_state
        actions := actions
        predicted_utilization := getPredictedUtilization req.predictions
        time_horizon_minutes := 60 }
    ({ recommendations := [newRec], cooldown_active := false,
       target_utilization_meta := some req.target_utilization },
     (workloadKey, now, newRec) :: List.filter (fun kv => kv.1 ≠ workloadKey) s)
  else
    ({ recommendations := [createCooldownRecommendation cfg req], cooldown_active := true,
       target_utilization_meta := none }, s)

/-! ### Anomaly detector Gaussian fallback (anomaly_detector.py 97-142)

`np.mean`/`np.std` are the population mean and standard deviation.  The
embedding carries the variance `σ²` instead of `σ` so everything stays in `ℚ`:
the code's test `std < 1e-10` becomes `var < 1e-20` and its comparison
`|v - μ| / σ > t` becomes `(v - μ)² > t² · σ²` (for `t ≥ 0`); the adequacy of
this encoding against `Real.sqrt` is proved in the theorem section. -/

/-- Population mean `np.mean(values)` (anomaly_detector.py 109). -/
def qmean (l : List ℚ) : ℚ := l.sum / (l.length : ℚ)

/-- Population variance, the square of `np.std(values)`
(anomaly_detector.py 110). -/
def popVar (l : List ℚ) : ℚ :=
  ((l.map fun v => (v - qmean l) * (v - qmean l)).sum) / (l.length : ℚ)

/-- Squared effective sigma of the code (anomaly_detector.py 110-112): the
code replaces `std` by `0.001` exactly when `std < 1e-10`, i.e. when the
variance is below `1e-20`. -/
def effVarCode (l : List ℚ) : ℚ :=
  if popVar l < 1 / 100000000000000000000 then 1 / 1000000 else popVar l

/-- Squared effective sigma as the spec words it (`σ` floored at `1e-3`, i.e.
replaced by `1e-3` whenever it is smaller, so `σ²` floored at `1e-6`): written
from the spec to compare against `effVarCode`. -/
def effVarSpecFloor (l : List ℚ) : ℚ :=
  if popVar l < 1 / 1000000 then 1 / 1000000 else popVar l

/-- Whether the code's statistical z-score branch flags `v` as an anomaly
(anomaly_detector.py 124-128): score `|v - μ| / σ_eff` strictly above the
threshold, in the squared encoding. -/
def isAnomalyCode (l : List ℚ) (t v : ℚ) : Bool :=
  decide ((v - qmean l) * (v - qmean l) > t * t * effVarCode l)

/-- The same decision with the spec's floored sigma: written from the spec to
compare against `isAnomalyCode`. -/
def isAnomalySpecFloor (l : List ℚ) (t v : ℚ) : Bool :=
  decide ((v - qmean l) * (v - qmean l) > t * t * effVarSpecFloor l)

/-- `AnomalyDetectorService._detect_metric_anomalies` on the Gaussian fallback
path (anomaly_detector.py 122-142): the reported anomalies are exactly the
(index, value) pairs whose score exceeds the threshold. -/
def detectMetricAnomaliesCode (l : List ℚ) (t : ℚ) : List (Nat × ℚ) :=
  l.enum.filter fun q => isAnomalyCode l t q.2

/-! ### Concrete inputs used to evaluate the embedded operations -/

/-- A paused agent row whose `last_seen` is ten minutes before the refresh
instant used below. -/
def pausedStaleAgent : AgentRow :=
  { id := "a1", deployment_id := "default", hostname := "host-1", platform := "linux",
    agent_version := "0.1.0", status := "online", last_seen := 0, registered_at := 0,
    paused := true, collection_interval := 15, metrics := [], metrics_count := 0,
    location := none, region := none, latitude := none, longitude := none,
    ip_address := none }

/-- A metric point with the newer timestamp, inserted first. -/
def ptA : MetricPoint := { name := "m", value := 0, timestamp := 100, labels := [] }

/-- A metric point with the older timestamp, inserted second. -/
def ptB : MetricPoint := { name := "m", value := 0, timestamp := 50, labels := [] }

/-- Two SQLite metric rows holding `ptA` and `ptB`. -/
def sqlRowsW : List SqlMetricRow := [⟨0, ptA⟩, ⟨1, ptB⟩]

/-- An already-registered agent with a non-default config (`paused = true`)
whose id matches the one the ingest handler derives from the labels below. -/
def ingestAgentW : AgentRow :=
  { id := "web-1-defa", deployment_id := "default", hostname := "web-1", platform := "linux",
    agent_version := "0.1.0", status := "online", last_seen := 0, registered_at := 0,
    paused := true, collection_interval := 15, metrics := ["cpu_utilization"],
    metrics_count := 0, location := none, region := none, latitude := none,
    longitude := none, ip_address := none }

/-- An ingest payload whose first sample carries `deployment` and `host`
labels. -/
def ingestPayloadW : IngestPayload :=
  { metrics := [{ name := "cpu_utilization", value := 1 / 2, timestamp := 0,
                  labels := [("deployment", "default"), ("host", "web-1")] }]
    agent_version := "0.1.0" }

/-- The full result of the embedded ingest handler on that payload against a
store containing `ingestAgentW`. -/
def ingestResultW : SqlMetricsState × List String × List AgentRow × IngestResponse :=
  ingestMetrics 100000 ⟨[], 1⟩ ["default"] [ingestAgentW] ingestPayloadW 5 "linux"

/-- Registration data re-registering `pausedStaleAgent`'s id with new mutable
fields. -/
def reRegisterDataW : AgentRegisterData :=
  { agent_id := some "a1", hostname := "host-renamed", platform := "darwin",
    agent_version := "0.2.0", metrics := ["cpu_utilization", "memory_utilization"],
    location := some "Berlin", region := some "eu-central", ip_address := some "10.0.0.9" }

/-- A concrete recommendation request (the spec's recommendation scenario). -/
def recReqW : RecommendationRequest :=
  { workload := "api", ns := "prod",
    current_state := { replicas := 2, cpu_request := 100, memory_request := 268435456,
                       cpu_limit := 500, memory_limit := 536870912 },
    predictions := some [9 / 10], target_utilization := 7 / 10 }

/-- Twelve data points: eleven zeros and one small outlier, giving a variance
strictly between `1e-20` and `1e-6`. -/
def anomalyValuesW : List ℚ := [0, 0, 0, 0, 0, 0, 0, 0, 0, 0, 0, 1 / 1000]

/-! ## Theorems -/

/-- C1: on flush failure the batch is prepended and the buffer bound
`batch_size * 10` holds, but the code keeps `buffer[:max_buffer]` — the oldest
elements — and drops the newest tail: with `batch_size = 2` and samples
`0, …, 21` buffered oldest-first, the kept buffer is `[0, …, 19]` (the 20
oldest) with 2 samples dropped, not the claim's newest tail `[2, …, 21]`. -/
theorem flushFail_keeps_oldest_drops_newest :
    flushMetricsFail 2 (List.range 22) ([] : List Nat) = (List.range 20, 2) ∧
    (flushMetricsFail 2 (List.range 22) ([] : List Nat)).1 ≠ (List.range 22).drop 2 ∧
    ∀ (bs : Nat) (buffer appended : List Nat),
      ((flushMetricsFail bs buffer appended).1).length ≤ bs * 10 := by
  refine ⟨by decide, by decide, ?_⟩
  intro bs buffer appended
  unfold flushMetricsFail
  by_cases h : (buffer.take bs ++ (buffer.drop bs ++ appended)).length > bs * 10
  · simp only [h, if_true, List.length_take]
    omega
  · simp only [h, if_false]
    omega

/-- C3: `send_metrics` hands `_flush_metrics` a Python bool, which always
passes the `result is not None` test, so the success branch runs and
`result.get("commands")` raises `AttributeError` on both outcomes — the
re-buffering branch is unreachable for every network behaviour, contradicting
the claimed "failure branch exactly on send failure". -/
theorem flushDispatch_never_rebuffers (ra : Nat) (rd : ℚ) (net : Nat → HttpOutcome)
    (metrics : List Nat) :
    flushDispatch (sendMetricsPy ra rd net metrics) = .attributeError ∧
    (∀ b : Bool, isNotNone (.pybool b) = true) ∧
    (∀ b : Bool, flushDispatch (.pybool b) ≠ .rebuffered) := by
  exact ⟨rfl, fun _ => rfl, fun b => by simp [flushDispatch, isNotNone]⟩

/-- C4: the in-memory status refresh leaves a paused agent untouched, but the
SQLite refresh — whose guard compares the `status` column with the never-used
value `'paused'` — marks the same paused, ten-minutes-stale agent `offline`,
so the derived status is not the claimed pure function of
`(now - last_seen, paused)` in both stores. -/
theorem sqliteStatusRefresh_clobbers_paused_agent :
    updateAgentStatusesMem 600 [pausedStaleAgent] = [pausedStaleAgent] ∧
    updateAgentStatusesSql 600 [pausedStaleAgent] =
      [{ pausedStaleAgent with status := "offline" }] ∧
    pausedStaleAgent.paused = true ∧
    pausedStaleAgent.status = "online" := by
  refine ⟨rfl, ?_, rfl, rfl⟩
  have h1 : ¬("online" : String) = "paused" := by decide
  have h2 : ¬("offline" : String) = "paused" := by decide
  norm_num [updateAgentStatusesSql, sqliteOfflinePass, sqliteWarningPass, pausedStaleAgent,
    h1, h2]

/-- C6 counterexample: after the server sets `collection_interval = 7`, a later
commands block that omits the key leaves the override in place, so the poller
keeps sleeping 7 s instead of reverting to the source's configured 15 s. -/
theorem applyCommands_absent_does_not_revert :
    applyCommands ⟨false, none⟩ ⟨none, .val 7⟩ = .ok ⟨false, some 7⟩ ∧
    applyCommands ⟨false, some 7⟩ ⟨none, .absent⟩ = .ok ⟨false, some 7⟩ ∧
    pollInterval ⟨false, some 7⟩ 15 = 7 ∧
    pollInterval ⟨false, some 7⟩ 15 ≠ 15 := by
  decide

/-- C6 as amended: applying a commands block with `collection_interval = n`
(`n ≠ 0`) makes every subsequent poller sleep use `n`; a later block omitting
the key keeps the override (no revert), and a block carrying `None` raises
`TypeError` instead of reverting. -/
theorem applyCommands_override_persists (ctl : AgentCtl) (p q : Option Bool) (n si : Int)
    (hn : n ≠ 0) :
    ∃ ctl1, applyCommands ctl ⟨p, .val n⟩ = .ok ctl1 ∧ pollInterval ctl1 si = n ∧
      ∃ ctl2, applyCommands ctl1 ⟨q, .absent⟩ = .ok ctl2 ∧
        ctl2.interval_override = some n ∧ pollInterval ctl2 si = n ∧
        applyCommands ctl1 ⟨q, .pynone⟩ = .error "TypeError" := by
  cases p <;> cases q <;>
    exact ⟨_, rfl, by simp [pollInterval, hn], _, rfl, rfl, by simp [pollInterval, hn], rfl⟩

/-- Witness for the amended C6 theorem at `n = 7`, `si = 15`. -/
theorem applyCommands_override_persists_witness :
    (7 : Int) ≠ 0 ∧
    (∃ ctl1, applyCommands ⟨false, none⟩ ⟨none, .val 7⟩ = .ok ctl1 ∧
      pollInterval ctl1 15 = 7 ∧
      ∃ ctl2, applyCommands ctl1 ⟨none, .absent⟩ = .ok ctl2 ∧
        ctl2.interval_override = some 7 ∧ pollInterval ctl2 15 = 7 ∧
        applyCommands ctl1 ⟨none, .pynone⟩ = .error "TypeError") :=
  ⟨by decide, applyCommands_override_persists ⟨false, none⟩ none none 7 15 (by decide)⟩

/-- C2: the ingest handler always answers `{"received": N}` and never builds a
`commands` key — even when the auto-registered agent's stored config is
non-default, as in the concrete run where the matching agent has
`paused = true` and the claim requires `commands = {paused: true}`. -/
theorem ingestResponse_never_carries_commands (m : Nat) (store : SqlMetricsState)
    (deployments : List String) (agents : List AgentRow) (payload : IngestPayload)
    (now : ℚ) (plat : String) :
    (ingestMetrics m store deployments agents payload now plat).2.2.2 =
      { received := payload.metrics.length, commands := none } ∧
    getAgentConfigSql ingestResultW.2.2.1 "web-1-defa" = some (true, 15) ∧
    (true, (15 : Int)) ≠ (false, (15 : Int)) ∧
    ingestResultW.2.2.2.commands = none := by
  exact ⟨rfl, by decide, by decide, rfl⟩

/-- Length bound of `SQLiteMetricsStore._trim`: the kept row count never
exceeds `max_points`. -/
theorem sqlTrim_length_le (m : Nat) (rows : List SqlMetricRow) :
    (sqlTrim m rows).length ≤ m := by
  unfold sqlTrim
  by_cases h : rows.length > m
  · simp only [h, if_true, List.length_drop]
    have := (List.perm_insertionSort rowLe rows).length_eq
    omega
  · simp only [h, if_false]
    omega

/-- C5 as amended: after every insertion the row count is at most `max_points`
in both stores; the SQLite trim evicts a set of rows each of whose timestamps
is at most every kept row's timestamp (oldest-timestamp eviction), and
evicted plus kept rows are exactly the table's rows; the in-memory store
instead evicts by list position (see the counterexample). -/
theorem metricsStores_bounded_sql_evicts_oldest :
    (∀ (m : Nat) (store : List MetricPoint) (p : MetricPoint),
      (memAddMetric m store p).length ≤ m) ∧
    (∀ (m : Nat) (s : SqlMetricsState) (batch : List MetricPoint),
      ((sqlAddMetrics m s batch).rows).length ≤ m) ∧
    (∀ (m : Nat) (rows : List SqlMetricRow), rows.length > m →
      ∀ x ∈ (List.insertionSort rowLe rows).take (rows.length - m),
      ∀ y ∈ sqlTrim m rows, x.p.timestamp ≤ y.p.timestamp) ∧
    (∀ (m : Nat) (rows : List SqlMetricRow), rows.length > m →
      ((List.insertionSort rowLe rows).take (rows.length - m) ++ sqlTrim m rows).Perm rows) := by
  refine ⟨?_, ?_, ?_, ?_⟩
  · intro m store p
    unfold memAddMetric
    by_cases h : (store ++ [p]).length > m
    · simp only [h, if_true, List.length_drop]
      omega
    · simp only [h, if_false]
      omega
  · intro m s batch
    exact sqlTrim_length_le m _
  · intro m rows h x hx y hy
    have hs : List.Sorted rowLe (List.insertionSort rowLe rows) :=
      List.sorted_insertionSort rowLe rows
    have hy' : y ∈ (List.insertionSort rowLe rows).drop (rows.length - m) := by
      unfold sqlTrim at hy
      simpa [h] using hy
    rcases hs.rel_of_mem_take_of_mem_drop hx hy' with h1 | ⟨h1, _⟩
    · exact le_of_lt h1
    · exact le_of_eq h1
  · intro m rows h
    unfold sqlTrim
    simp only [h, if_true]
    rw [List.take_append_drop]
    exact List.perm_insertionSort rowLe rows

/-- Witness for the amended C5 theorem: on the two-row table `sqlRowsW` with
`max_points = 1`, the evicted row `⟨1, ptB⟩` has a timestamp at most the kept
row `⟨0, ptA⟩`'s. -/
theorem metricsStores_bounded_witness :
    sqlRowsW.length > 1 ∧
    (SqlMetricRow.mk 1 ptB).p.timestamp ≤ (SqlMetricRow.mk 0 ptA).p.timestamp := by
  refine ⟨by decide, ?_⟩
  exact metricsStores_bounded_sql_evicts_oldest.2.2.1 1 sqlRowsW (by decide)
    ⟨1, ptB⟩ (by decide) ⟨0, ptA⟩ (by decide)

/-- C5 counterexample: with `max_points = 1`, inserting a newer-timestamped
point and then an older-timestamped one makes the in-memory store evict the
row with the NEWEST timestamp (eviction is by list position, not by
timestamp), keeping `ptB` instead of the claimed `ptA`. -/
theorem memAddMetric_evicts_by_position_not_timestamp :
    memAddMetrics 1 [] [ptA, ptB] = [ptB] ∧
    ptB.timestamp < ptA.timestamp ∧
    memAddMetrics 1 [] [ptA, ptB] ≠ [ptA] := by
  decide

/-- C8: re-registering an existing `agent_id` is idempotent in both backends:
the store keeps its size (no new row), the row is replaced in place by an
update that sets the mutable fields from the request plus `status = online`,
`last_seen = now`, and leaves `id`, `registered_at`, `deployment_id`,
`paused`, `collection_interval`, `metrics_count` (and the coordinates)
unchanged. -/
theorem registerAgent_reRegister_idempotent (deployments : List String)
    (agents : List AgentRow) (depId aid : String) (a : AgentRow)
    (d : AgentRegisterData) (now : ℚ) (fresh : String)
    (hdep : depId ∈ deployments) (hid : d.agent_id = some aid) (hne : aid ≠ "")
    (hfind : agents.find? (fun x => x.id = aid) = some a) :
    ∃ u, registerAgentMem deployments agents depId d now fresh =
        .ok (agents.map fun x => if x.id = aid then u else x, u) ∧
      registerAgentSql deployments agents depId d now fresh =
        (deployments, agents.map fun x => if x.id = aid then u else x, u) ∧
      (agents.map fun x => if x.id = aid then u else x).length = agents.length ∧
      u ∈ (agents.map fun x => if x.id = aid then u else x) ∧
      u.id = a.id ∧ u.registered_at = a.registered_at ∧
      u.deployment_id = a.deployment_id ∧ u.paused = a.paused ∧
      u.collection_interval = a.collection_interval ∧
      u.metrics_count = a.metrics_count ∧ u.latitude = a.latitude ∧
      u.longitude = a.longitude ∧ u.hostname = d.hostname ∧
      u.platform = d.platform ∧ u.agent_version = d.agent_version ∧
      u.metrics = d.metrics ∧ u.location = d.location ∧ u.region = d.region ∧
      u.ip_address = d.ip_address ∧ u.status = "online" ∧ u.last_seen = now := by
  have hkey : chooseAgentId d fresh = aid := by
    unfold chooseAgentId
    rw [hid]
    simp [hne]
  have hpa : a.id = aid := by
    have := List.find?_some hfind
    simpa using this
  have hmem : a ∈ agents := List.mem_of_find?_eq_some hfind
  refine ⟨{ a with
      last_seen := now
      status := "online"
      hostname := d.hostname
      platform := d.platform
      agent_version := d.agent_version
      metrics := d.metrics
      location := d.location
      region := d.region
      ip_address := d.ip_address },
    ?_, ?_, List.length_map _ _, ?_,
    rfl, rfl, rfl, rfl, rfl, rfl, rfl, rfl, rfl, rfl, rfl, rfl, rfl, rfl, rfl, rfl, rfl⟩
  · simp [registerAgentMem, hkey, hfind, hdep]
  · simp [registerAgentSql, hkey, hfind, hdep]
  · exact List.mem_map.mpr ⟨a, hmem, by rw [if_pos hpa]⟩

/-- Witness for the C8 theorem: re-registering `pausedStaleAgent`'s id with
`reRegisterDataW` in a one-agent store. -/
theorem registerAgent_reRegister_witness :
    "default" ∈ ["default"] ∧ reRegisterDataW.agent_id = some "a1" ∧
    ("a1" : String) ≠ "" ∧
    [pausedStaleAgent].find? (fun x => x.id = "a1") = some pausedStaleAgent ∧
    (∃ u, registerAgentMem ["default"] [pausedStaleAgent] "default" reRegisterDataW 1000 "abcd" =
        .ok ([pausedStaleAgent].map fun x => if x.id = "a1" then u else x, u) ∧
      registerAgentSql ["default"] [pausedStaleAgent] "default" reRegisterDataW 1000 "abcd" =
        (["default"], [pausedStaleAgent].map fun x => if x.id = "a1" then u else x, u) ∧
      ([pausedStaleAgent].map fun x => if x.id = "a1" then u else x).length =
        [pausedStaleAgent].length ∧
      u ∈ ([pausedStaleAgent].map fun x => if x.id = "a1" then u else x) ∧
      u.id = pausedStaleAgent.id ∧ u.registered_at = pausedStaleAgent.registered_at ∧
      u.deployment_id = pausedStaleAgent.deployment_id ∧ u.paused = pausedStaleAgent.paused ∧
      u.collection_interval = pausedStaleAgent.collection_interval ∧
      u.metrics_count = pausedStaleAgent.metrics_count ∧
      u.latitude = pausedStaleAgent.latitude ∧ u.longitude = pausedStaleAgent.longitude ∧
      u.hostname = reRegisterDataW.hostname ∧ u.platform = reRegisterDataW.platform ∧
      u.agent_version = reRegisterDataW.agent_version ∧ u.metrics = reRegisterDataW.metrics ∧
      u.location = reRegisterDataW.location ∧ u.region = reRegisterDataW.region ∧
      u.ip_address = reRegisterDataW.ip_address ∧ u.status = "online" ∧
      u.last_seen = 1000) :=
  ⟨by decide, by decide, by decide, by decide,
    registerAgent_reRegister_idempotent ["default"] [pausedStaleAgent] "default" "a1"
      pausedStaleAgent reRegisterDataW 1000 "abcd"
      (by decide) (by decide) (by decide) (by decide)⟩

/-- During an active cooldown, `recommend` answers the single cooldown
recommendation with `cooldown_active = True` and leaves the state unchanged. -/
theorem recommend_of_cooldown_blocked (cfg : RecConfig) (s : RecState) (now : ℚ)
    (req : RecommendationRequest)
    (h : checkCooldown cfg s (req.ns ++ "/" ++ req.workload) now = false) :
    recommend cfg s now req =
      ({ recommendations := [createCooldownRecommendation cfg req], cooldown_active := true,
         target_utilization_meta := none }, s) := by
  simp only [recommend, h, Bool.false_eq_true, if_false]

/-- A `recommend` call that passes the cooldown check stores the call's time
under the workload key. -/
theorem recommend_stores_key (cfg : RecConfig) (s : RecState) (now : ℚ)
    (req : RecommendationRequest)
    (h : checkCooldown cfg s (req.ns ++ "/" ++ req.workload) now = true) :
    ∃ r, List.lookup (req.ns ++ "/" ++ req.workload) (recommend cfg s now req).2 =
      some (now, r) := by
  simp only [recommend, h, if_true]
  exact ⟨{ workload := req.workload, ns := req.ns, current_state := req.current_state,
           actions := analyzeAndRecommend cfg req,
           predicted_utilization := getPredictedUtilization req.predictions,
           time_horizon_minutes := 60 }, by simp [List.lookup]⟩

/-- C7: a second `recommend` call for the same `namespace/workload`, made less
than `cooldown_minutes` after a first call that stored a recommendation,
answers `cooldown_active = true` with a single recommendation whose only
action is `no_action` — in particular no `scale_out` or `scale_in`. -/
theorem recommend_cooldown_suppresses_scaling (cfg : RecConfig) (s0 : RecState)
    (t0 t1 : ℚ) (req1 req2 : RecommendationRequest)
    (hns : req2.ns = req1.ns) (hw : req2.workload = req1.workload)
    (hfirst : (recommend cfg s0 t0 req1).1.cooldown_active = false)
    (hlt : (t1 - t0) / 60 < (cfg.cooldown_minutes : ℚ)) :
    (recommend cfg (recommend cfg s0 t0 req1).2 t1 req2).1.cooldown_active = true ∧
    (recommend cfg (recommend cfg s0 t0 req1).2 t1 req2).1.recommendations =
      [createCooldownRecommendation cfg req2] ∧
    ∀ r ∈ (recommend cfg (recommend cfg s0 t0 req1).2 t1 req2).1.recommendations,
      ∀ a ∈ r.actions, a.action = ActionType.no_action := by
  have hkey2 : req2.ns ++ "/" ++ req2.workload = req1.ns ++ "/" ++ req1.workload := by
    rw [hns, hw]
  cases hb : checkCooldown cfg s0 (req1.ns ++ "/" ++ req1.workload) t0 with
  | false =>
    exfalso
    rw [recommend_of_cooldown_blocked cfg s0 t0 req1 hb] at hfirst
    simp at hfirst
  | true =>
    obtain ⟨r, hlook⟩ := recommend_stores_key cfg s0 t0 req1 hb
    have hcc2 : checkCooldown cfg (recommend cfg s0 t0 req1).2
        (req2.ns ++ "/" ++ req2.workload) t1 = false := by
      unfold checkCooldown
      rw [hkey2, hlook]
      rw [decide_eq_false_iff_not]
      exact not_le.mpr hlt
    rw [recommend_of_cooldown_blocked cfg _ t1 req2 hcc2]
    refine ⟨rfl, rfl, ?_⟩
    intro r hr a ha
    simp only [List.mem_singleton] at hr
    subst hr
    simp only [createCooldownRecommendation, List.mem_singleton] at ha
    rw [ha]

/-- Witness for the C7 theorem: two calls for `prod/api` at t = 0 s and
t = 60 s against the default server config (cooldown 5 minutes). -/
theorem recommend_cooldown_witness :
    (recommend serverRecConfig [] 0 recReqW).1.cooldown_active = false ∧
    ((60 : ℚ) - 0) / 60 < (serverRecConfig.cooldown_minutes : ℚ) ∧
    ((recommend serverRecConfig (recommend serverRecConfig [] 0 recReqW).2 60 recReqW).1.cooldown_active = true ∧
     (recommend serverRecConfig (recommend serverRecConfig [] 0 recReqW).2 60 recReqW).1.recommendations =
       [createCooldownRecommendation serverRecConfig recReqW] ∧
     ∀ r ∈ (recommend serverRecConfig (recommend serverRecConfig [] 0 recReqW).2 60 recReqW).1.recommendations,
       ∀ a ∈ r.actions, a.action = ActionType.no_action) :=
  ⟨by decide, by norm_num [serverRecConfig],
    recommend_cooldown_suppresses_scaling serverRecConfig [] 0 60 recReqW recReqW
      rfl rfl (by decide) (by norm_num [serverRecConfig])⟩

/-- The backoff projection distributes over trace concatenation. -/
theorem backoffSleeps_append (a b : List SleepEvent) :
    backoffSleeps (a ++ b) = backoffSleeps a ++ backoffSleeps b :=
  List.filterMap_append a b _

/-- Each fall-through loop iteration adds exactly one attempt. -/
theorem sendStep_attempts (ra : Nat) (rd : ℚ) (i : Nat) (pre : List SleepEvent)
    (t : SendTrace) : (sendStep ra rd i pre t).attempts = t.attempts + 1 := rfl

/-- The loop makes at most `fuel` attempts. -/
theorem sendGo_attempts_le (ra : Nat) (rd : ℚ) (net : Nat → HttpOutcome) :
    ∀ f i, (sendGo ra rd net i f).attempts ≤ f := by
  intro f
  induction f with
  | zero => intro i; simp [sendGo]
  | succ f ih =>
    intro i
    have hstep : ∀ pre, (sendStep ra rd i pre (sendGo ra rd net (i + 1) f)).attempts ≤ f + 1 := by
      intro pre
      rw [sendStep_attempts]
      exact Nat.succ_le_succ (ih (i + 1))
    simp only [sendGo]
    cases hn : net i with
    | status code hh =>
      by_cases h200 : code = 200
      · simp [h200]
      · by_cases h401 : code = 401
        · simp [h200, h401]
        · by_cases h429 : code = 429
          · simpa [h200, h401, h429] using hstep _
          · simpa [h200, h401, h429] using hstep _
    | timeout => exact hstep _
    | httpError => exact hstep _

/-- With fuel left, the loop makes at least one attempt. -/
theorem sendGo_attempts_pos (ra : Nat) (rd : ℚ) (net : Nat → HttpOutcome) :
    ∀ f i, 0 < f → 1 ≤ (sendGo ra rd net i f).attempts := by
  intro f i hf
  cases f with
  | zero => omega
  | succ f =>
    simp only [sendGo]
    cases hn : net i with
    | status code hh =>
      by_cases h200 : code = 200
      · simp [h200]
      · by_cases h401 : code = 401
        · simp [h200, h401]
        · by_cases h429 : code = 429
          · simp [h200, h401, h429, sendStep_attempts]
          · simp [h200, h401, h429, sendStep_attempts]
    | timeout => simp [sendStep_attempts]
    | httpError => simp [sendStep_attempts]

/-- The expected backoff sequence written as a `range`-map. -/
theorem expectedBackoffs_eq_range (rd : ℚ) :
    ∀ (n i : Nat),
      expectedBackoffs rd i n = (List.range n).map (fun k => rd * ((i + k + 1 : Nat) : ℚ)) := by
  intro n
  induction n with
  | zero => intro i; simp [expectedBackoffs]
  | succ n ih =>
    intro i
    rw [List.range_succ_eq_map]
    simp only [List.map_cons, List.map_map]
    unfold expectedBackoffs
    rw [ih (i + 1)]
    simp only [List.cons.injEq]
    refine ⟨by trivial, ?_⟩
    apply List.map_congr_left
    intro k _
    simp only [Function.comp]
    congr 2
    omega

/-- Backoff sleeps contributed by a fall-through iteration at index `i`, given
the induction hypothesis for the rest of the loop. -/
theorem sendStep_backoffs (ra : Nat) (rd : ℚ) (net : Nat → HttpOutcome) (f i : Nat)
    (h : i + (f + 1) = ra) (pre : List SleepEvent) (hpre : backoffSleeps pre = [])
    (ih : ∀ j, j + f = ra →
      backoffSleeps (sendGo ra rd net j f).sleeps =
        expectedBackoffs rd j ((sendGo ra rd net j f).attempts - 1)) :
    backoffSleeps (sendStep ra rd i pre (sendGo ra rd net (i + 1) f)).sleeps =
      expectedBackoffs rd i ((sendStep ra rd i pre (sendGo ra rd net (i + 1) f)).attempts - 1) := by
  have ih' := ih (i + 1) (by omega)
  rw [sendStep_attempts]
  simp only [sendStep, backoffSleeps_append, hpre, List.nil_append, Nat.add_sub_cancel]
  rcases Nat.eq_zero_or_pos f with hf | hf
  · subst hf
    have hra : ¬ i < ra - 1 := by omega
    simp [sendGo, hra, backoffSleeps, expectedBackoffs]
  · have hra : i < ra - 1 := by omega
    have hpos : 1 ≤ (sendGo ra rd net (i + 1) f).attempts :=
      sendGo_attempts_pos ra rd net f (i + 1) hf
    obtain ⟨m, hm⟩ : ∃ m, (sendGo ra rd net (i + 1) f).attempts = m + 1 :=
      ⟨(sendGo ra rd net (i + 1) f).attempts - 1, by omega⟩
    rw [hm] at ih'
    simp only [Nat.add_sub_cancel] at ih'
    rw [hm]
    show backoffSleeps (if i < ra - 1 then [SleepEvent.backoff (rd * ((i + 1 : Nat) : ℚ))] else []) ++
        backoffSleeps (sendGo ra rd net (i + 1) f).sleeps = expectedBackoffs rd i (m + 1)
    rw [ih', if_pos hra]
    simp [backoffSleeps, expectedBackoffs]

/-- Backoffs of the whole loop: exactly `rd·(i+1), …` — one per fall-through,
i.e. `attempts - 1` of them. -/
theorem sendGo_backoffs (ra : Nat) (rd : ℚ) (net : Nat → HttpOutcome) :
    ∀ f i, i + f = ra →
      backoffSleeps (sendGo ra rd net i f).sleeps =
        expectedBackoffs rd i ((sendGo ra rd net i f).attempts - 1) := by
  intro f
  induction f with
  | zero => intro i _; simp [sendGo, backoffSleeps, expectedBackoffs]
  | succ f ih =>
    intro i h
    simp only [sendGo]
    cases hn : net i with
    | status code hh =>
      by_cases h200 : code = 200
      · simp [h200, backoffSleeps, expectedBackoffs]
      · by_cases h401 : code = 401
        · simp [h200, h401, backoffSleeps, expectedBackoffs]
        · by_cases h429 : code = 429
          · simp only [h200, h401, h429, if_false, if_true]
            exact sendStep_backoffs ra rd net f i h _ rfl ih
          · simp only [h200, h401, h429, if_false]
            exact sendStep_backoffs ra rd net f i h _ rfl ih
    | timeout => exact sendStep_backoffs ra rd net f i h _ rfl ih
    | httpError => exact sendStep_backoffs ra rd net f i h _ rfl ih

/-- C9: `send_metrics` makes at most `retry_attempts` HTTP POST attempts; an
attempt answered 200 ends the call successfully at once (no further attempts,
no further sleeps), an attempt answered 401 ends it as a failure at once, and
the linear backoffs performed between consecutive attempts are exactly
`retry_delay·1, retry_delay·2, …` — one per fall-through, `attempts - 1` in
all (429 rate-limit waits are an additional, separately tagged sleep). -/
theorem sendMetrics_retry_contract (ra : Nat) (rd : ℚ) (net : Nat → HttpOutcome)
    (ms : List Nat) :
    (sendMetrics ra rd net ms).attempts ≤ ra ∧
    (∀ (i f : Nat) (h : Option ℚ), net i = .status 200 h →
      sendGo ra rd net i (f + 1) = ⟨true, 1, []⟩) ∧
    (∀ (i f : Nat) (h : Option ℚ), net i = .status 401 h →
      sendGo ra rd net i (f + 1) = ⟨false, 1, []⟩) ∧
    backoffSleeps (sendMetrics ra rd net ms).sleeps =
      expectedBackoffs rd 0 ((sendMetrics ra rd net ms).attempts - 1) := by
  refine ⟨?_, ?_, ?_, ?_⟩
  · unfold sendMetrics
    by_cases hm : ms.isEmpty
    · simp [hm]
    · simp only [hm, Bool.false_eq_true, if_false]
      exact sendGo_attempts_le ra rd net ra 0
  · intro i f h hn
    simp [sendGo, hn]
  · intro i f h hn
    simp [sendGo, hn]
  · unfold sendMetrics
    by_cases hm : ms.isEmpty
    · simp [hm, backoffSleeps, expectedBackoffs]
    · simp only [hm, Bool.false_eq_true, if_false]
      exact sendGo_backoffs ra rd net ra 0 (by omega)

/-- Witness for the C9 theorem: a network that answers 200 at once makes the
call succeed after exactly one attempt with no sleeps. -/
theorem sendMetrics_retry_contract_witness :
    ((fun _ : Nat => HttpOutcome.status 200 none) 0 = HttpOutcome.status 200 none) ∧
    sendGo 3 1 (fun _ : Nat => HttpOutcome.status 200 none) 0 1 = ⟨true, 1, []⟩ :=
  ⟨rfl,
    (sendMetrics_retry_contract 3 1 (fun _ : Nat => HttpOutcome.status 200 none) [0]).2.1
      0 0 none rfl⟩

/-- C10 counterexample: on twelve points with variance strictly between
`1e-20` and `1e-6` (sigma strictly between `1e-10` and `1e-3`) and the valid
threshold 2, the code — which floors sigma only below `1e-10` — flags the
outlier, while the spec's floor-at-`1e-3` sigma would score it 0.01 and flag
nothing. -/
theorem gaussianFloor_counterexample :
    popVar anomalyValuesW < 1 / 1000000 ∧
    1 / 100000000000000000000 < popVar anomalyValuesW ∧
    isAnomalyCode anomalyValuesW 2 (1 / 1000) = true ∧
    isAnomalySpecFloor anomalyValuesW 2 (1 / 1000) = false ∧
    (1 : ℚ) ≤ 2 ∧ (2 : ℚ) ≤ 5 ∧ 12 ≤ anomalyValuesW.length := by
  have hmean : qmean anomalyValuesW = 1 / 12000 := by
    rw [qmean, anomalyValuesW]
    norm_num
  have hvar : popVar anomalyValuesW = 11 / 144000000 := by
    rw [popVar]
    simp only [hmean]
    simp only [anomalyValuesW]
    norm_num
  refine ⟨?_, ?_, ?_, ?_, by norm_num, by norm_num, by norm_num [anomalyValuesW]⟩
  · rw [hvar]
    norm_num
  · rw [hvar]
    norm_num
  · rw [isAnomalyCode, decide_eq_true_eq, effVarCode, hvar, hmean]
    norm_num
  · rw [isAnomalySpecFloor, decide_eq_false_iff_not, effVarSpecFloor, hvar, hmean]
    norm_num

/-- The population variance is nonnegative. -/
theorem popVar_nonneg (l : List ℚ) : 0 ≤ popVar l := by
  unfold popVar
  apply div_nonneg
  · apply List.sum_nonneg
    intro x hx
    obtain ⟨w, _, rfl⟩ := List.mem_map.mp hx
    exact mul_self_nonneg _
  · exact Nat.cast_nonneg l.length

/-- Adequacy of the squared encoding: the Boolean decision of the embedded
detector holds exactly when the real-valued z-score `|v − μ| / σ` — with `σ`
the square root of the variance, replaced by `1e-3` when below `1e-10` as in
the code — strictly exceeds the threshold. -/
theorem isAnomalyCode_iff_real (l : List ℚ) (t v : ℚ) (ht : 0 ≤ t) :
    isAnomalyCode l t v = true ↔
      (t : ℝ) < |(v : ℝ) - ((qmean l : ℚ) : ℝ)| /
        (if Real.sqrt ((popVar l : ℚ) : ℝ) < 1 / 10 ^ 10 then 1 / 10 ^ 3
         else Real.sqrt ((popVar l : ℚ) : ℝ)) := by
  have hV : (0 : ℝ) ≤ ((popVar l : ℚ) : ℝ) := by exact_mod_cast popVar_nonneg l
  set V : ℝ := ((popVar l : ℚ) : ℝ) with hVdef
  set σ : ℝ := if Real.sqrt V < 1 / 10 ^ 10 then 1 / 10 ^ 3 else Real.sqrt V with hσdef
  have hσpos : 0 < σ := by
    rw [hσdef]
    split
    · norm_num
    · rename_i hc
      have h1 : (1 : ℝ) / 10 ^ 10 ≤ Real.sqrt V := not_lt.mp hc
      calc (0 : ℝ) < 1 / 10 ^ 10 := by norm_num
        _ ≤ Real.sqrt V := h1
  have hσsq : σ ^ 2 = ((effVarCode l : ℚ) : ℝ) := by
    rw [hσdef]
    by_cases hc : Real.sqrt V < 1 / 10 ^ 10
    · rw [if_pos hc]
      have hVlt : V < (((1 : ℚ) / 100000000000000000000 : ℚ) : ℝ) := by
        have h2 := (Real.sqrt_lt' (by norm_num : (0 : ℝ) < 1 / 10 ^ 10)).mp hc
        calc V < ((1 : ℝ) / 10 ^ 10) ^ 2 := h2
          _ = (((1 : ℚ) / 100000000000000000000 : ℚ) : ℝ) := by push_cast; norm_num
      have hq : popVar l < 1 / 100000000000000000000 := by
        rw [hVdef] at hVlt
        exact_mod_cast hVlt
      rw [effVarCode, if_pos hq]
      push_cast
      norm_num
    · rw [if_neg hc]
      have hq : ¬ popVar l < 1 / 100000000000000000000 := by
        intro hq
        apply hc
        rw [Real.sqrt_lt' (by norm_num : (0 : ℝ) < 1 / 10 ^ 10)]
        have hVlt : V < (((1 : ℚ) / 100000000000000000000 : ℚ) : ℝ) := by
          rw [hVdef]
          exact_mod_cast hq
        calc V < (((1 : ℚ) / 100000000000000000000 : ℚ) : ℝ) := hVlt
          _ = ((1 : ℝ) / 10 ^ 10) ^ 2 := by push_cast; norm_num
      rw [effVarCode, if_neg hq]
      exact Real.sq_sqrt hV
  have htR : (0 : ℝ) ≤ (t : ℝ) := by exact_mod_cast ht
  rw [isAnomalyCode, decide_eq_true_eq]
  constructor
  · intro hQ
    have hQR : (t : ℝ) * (t : ℝ) * ((effVarCode l : ℚ) : ℝ) <
        ((v : ℝ) - ((qmean l : ℚ) : ℝ)) * ((v : ℝ) - ((qmean l : ℚ) : ℝ)) := by
      exact_mod_cast hQ
    rw [← hσsq] at hQR
    have hQR' : ((t : ℝ) * σ) ^ 2 < ((v : ℝ) - ((qmean l : ℚ) : ℝ)) ^ 2 := by
      calc ((t : ℝ) * σ) ^ 2 = (t : ℝ) * (t : ℝ) * σ ^ 2 := by ring
        _ < ((v : ℝ) - ((qmean l : ℚ) : ℝ)) * ((v : ℝ) - ((qmean l : ℚ) : ℝ)) := hQR
        _ = ((v : ℝ) - ((qmean l : ℚ) : ℝ)) ^ 2 := by ring
    have habs := sq_lt_sq.mp hQR'
    rw [abs_of_nonneg (mul_nonneg htR hσpos.le)] at habs
    rw [lt_div_iff₀ hσpos]
    exact habs
  · intro hR
    have habs : (t : ℝ) * σ < |(v : ℝ) - ((qmean l : ℚ) : ℝ)| := (lt_div_iff₀ hσpos).mp hR
    have hsq : ((t : ℝ) * σ) ^ 2 < ((v : ℝ) - ((qmean l : ℚ) : ℝ)) ^ 2 := by
      apply sq_lt_sq.mpr
      rw [abs_of_nonneg (mul_nonneg htR hσpos.le)]
      exact habs
    have hfin : (t : ℝ) * (t : ℝ) * ((effVarCode l : ℚ) : ℝ) <
        ((v : ℝ) - ((qmean l : ℚ) : ℝ)) * ((v : ℝ) - ((qmean l : ℚ) : ℝ)) := by
      rw [← hσsq]
      calc (t : ℝ) * (t : ℝ) * σ ^ 2 = ((t : ℝ) * σ) ^ 2 := by ring
        _ < ((v : ℝ) - ((qmean l : ℚ) : ℝ)) ^ 2 := hsq
        _ = ((v : ℝ) - ((qmean l : ℚ) : ℝ)) * ((v : ℝ) - ((qmean l : ℚ) : ℝ)) := by ring
    exact_mod_cast hfin

/-- C10 as amended: a point is reported as an anomaly exactly when its real
z-score `|v − μ| / σ` strictly exceeds the threshold, where `σ` is replaced by
`1e-3` only when it is below `1e-10` (degenerate variance) — not, as the spec
words it, whenever `σ < 1e-3`; the spec's floor agrees with the code exactly
outside the band `1e-20 ≤ variance < 1e-6`. -/
theorem detectAnomalies_score_semantics (l : List ℚ) (t v : ℚ) (i : Nat) (ht : 0 ≤ t) :
    ((i, v) ∈ detectMetricAnomaliesCode l t ↔
      (i, v) ∈ l.enum ∧
        (t : ℝ) < |(v : ℝ) - ((qmean l : ℚ) : ℝ)| /
          (if Real.sqrt ((popVar l : ℚ) : ℝ) < 1 / 10 ^ 10 then 1 / 10 ^ 3
           else Real.sqrt ((popVar l : ℚ) : ℝ))) ∧
    (1 / 1000000 ≤ popVar l ∨ popVar l < 1 / 100000000000000000000 →
      isAnomalyCode l t v = isAnomalySpecFloor l t v) := by
  constructor
  · rw [detectMetricAnomaliesCode, List.mem_filter]
    exact and_congr_right fun _ => isAnomalyCode_iff_real l t v ht
  · intro h
    rcases h with h | h
    · have h1 : ¬ popVar l < 1 / 100000000000000000000 := by
        intro hlt
        have : (1 : ℚ) / 1000000 < 1 / 100000000000000000000 := lt_of_le_of_lt h hlt
        norm_num at this
      have h2 : ¬ popVar l < 1 / 1000000 := not_lt.mpr h
      rw [isAnomalyCode, isAnomalySpecFloor, effVarCode, effVarSpecFloor, if_neg h1, if_neg h2]
    · have h2 : popVar l < 1 / 1000000 := lt_trans h (by norm_num)
      rw [isAnomalyCode, isAnomalySpecFloor, effVarCode, effVarSpecFloor, if_pos h, if_pos h2]

/-- Witness for the amended C10 theorem at the twelve-point series, threshold
2 and the outlier value. -/
theorem detectAnomalies_score_semantics_witness :
    (0 : ℚ) ≤ 2 ∧
    (((11, 1 / 1000) ∈ detectMetricAnomaliesCode anomalyValuesW 2 ↔
      (11, 1 / 1000) ∈ anomalyValuesW.enum ∧
        ((2 : ℚ) : ℝ) < |((1 / 1000 : ℚ) : ℝ) - ((qmean anomalyValuesW : ℚ) : ℝ)| /
          (if Real.sqrt ((popVar anomalyValuesW : ℚ) : ℝ) < 1 / 10 ^ 10 then 1 / 10 ^ 3
           else Real.sqrt ((popVar anomalyValuesW : ℚ) : ℝ))) ∧
    (1 / 1000000 ≤ popVar anomalyValuesW ∨
        popVar anomalyValuesW < 1 / 100000000000000000000 →
      isAnomalyCode anomalyValuesW 2 (1 / 1000) =
        isAnomalySpecFloor anomalyValuesW 2 (1 / 1000))) :=
  ⟨by norm_num,
    detectAnomalies_score_semantics anomalyValuesW 2 (1 / 1000) 11 (by norm_num)⟩

end Helios
